import Mathlib

/-!
Verification development for the channel operation specializer of the
`fast` package (file `fast/channel.go`): the compilation of channel
receive (single-value `Recv1`, two-value `Recv`) and channel send
(`Send`) into specialized closures, and the threaded execution of the
compiled send instructions.

Modelling conventions (following the design notes of the specification,
section 9):
- compiled instructions are tagged records (`Stmt`) plus a pure executor
  `Stmt.exec`, instead of Go closures that mutate a shared environment;
  the flat code array is kept outside the `Env` and passed to the
  executor explicitly;
- the reflection-style value wrapper `reflect.Value` is modelled as a
  pair `RValue` of a `Ty` and a tagged payload `Prim`; floating-point
  and complex payloads are kept as opaque bit representations (`Nat`),
  since no arithmetic is performed on them by this code;
- channels are externally owned: a `World` maps channel ids to channel
  states, and every runtime channel operation threads the `World`;
  `none` models blocking or a runtime fault.
-/

namespace Fast

/-- The coarse kind classification of a type (`reflect.Kind`). -/
inductive Kind where
  | bool | int | int8 | int16 | int32 | int64
  | uint | uint8 | uint16 | uint32 | uint64 | uintptr
  | float32 | float64 | complex64 | complex128
  | string | chan | invalid | other
  deriving DecidableEq, Repr

/-- The scalar kinds that get dedicated fast-path closures in channel.go:
booleans, the integer widths, the float widths, the complex widths and
strings. -/
def Kind.isScalar : Kind → Bool
  | .bool | .int | .int8 | .int16 | .int32 | .int64
  | .uint | .uint8 | .uint16 | .uint32 | .uint64 | .uintptr
  | .float32 | .float64 | .complex64 | .complex128
  | .string => true
  | _ => false

/-- Channel direction (`reflect.ChanDir`): receive-only, send-only or
bidirectional. -/
inductive ChanDir where
  | recvDir | sendDir | bothDir
  deriving DecidableEq, Repr

/-- `dir & reflect.RecvDir != 0`. -/
def ChanDir.hasRecv : ChanDir → Bool
  | .recvDir => true
  | .bothDir => true
  | .sendDir => false

/-- `dir & reflect.SendDir != 0`. -/
def ChanDir.hasSend : ChanDir → Bool
  | .sendDir => true
  | .bothDir => true
  | .recvDir => false

/-- A static type: either one of the predefined basic types (identified by
its kind), a distinct user-defined (named) type that merely shares an
underlying kind, or a direction-qualified channel type. -/
inductive Ty where
  | basic (k : Kind)
  | named (id : Nat) (underlying : Kind)
  | chanOf (dir : ChanDir) (elem : Ty)
  deriving DecidableEq, Repr

/-- Modelled from the spec: `BasicType(k)` yields the predefined basic
Type of kind `k` (section 3: identity comparison against each predefined
basic Type constant); its implementation lives outside this file's
source. -/
def BasicType (k : Kind) : Ty := Ty.basic k

/-- `Type.Kind()`. -/
def Ty.kind : Ty → Kind
  | .basic k => k
  | .named _ k => k
  | .chanOf _ _ => Kind.chan

/-- `Type.ChanDir()`; only queried on channel types by the source. -/
def Ty.chanDir : Ty → ChanDir
  | .chanOf d _ => d
  | _ => ChanDir.bothDir

/-- `Type.Elem()`; only queried on channel types by the source. -/
def Ty.elem : Ty → Ty
  | .chanOf _ e => e
  | t => t

/-- Whether a type is one of the predefined basic types. -/
def Ty.isBasic : Ty → Bool
  | .basic _ => true
  | _ => false

/-- Modelled from the spec: the Type capability's assignability check
(section 6): a value's type is assignable to a target type when the two
types are identical, or when they share the same underlying non-channel
kind and at least one of the two is the predefined basic type. -/
def Ty.AssignableTo (t u : Ty) : Bool :=
  (t == u) || ((t.kind == u.kind) && !(t.kind == Kind.chan) && (t.isBasic || u.isBasic))

/-- Kind of a possibly-missing static type (a missing type has no valid
kind). -/
def tyKind : Option Ty → Kind
  | some t => t.kind
  | none => Kind.invalid

/-- Channel direction of a possibly-missing static type. -/
def tyChanDir : Option Ty → ChanDir
  | some t => t.chanDir
  | none => ChanDir.bothDir

/-- Element type of a possibly-missing static type. -/
def tyElem : Option Ty → Ty
  | some t => t.elem
  | none => Ty.basic Kind.invalid

/-- Wrap a mathematical integer into the range of a `w`-bit signed
machine integer (the effect of Go's `intW(x)` conversions). -/
def wrapInt (w : Nat) (n : Int) : Int :=
  (n + (2 : Int) ^ (w - 1)) % (2 : Int) ^ w - (2 : Int) ^ (w - 1)

/-- The raw payload stored in a `reflect.Value` or in a channel buffer:
a tagged scalar, a channel reference, or the nil/opaque payload used for
non-scalar kinds.  Floating-point and complex payloads are opaque bit
representations. -/
inductive Prim where
  | pBool (b : Bool)
  | pInt (n : Int)
  | pUint (n : Nat)
  | pFloat (bits : Nat)
  | pComplex (bits : Nat)
  | pString (s : String)
  | pChan (id : Nat)
  | pNil
  deriving DecidableEq, Repr

/-- A `reflect.Value`: a payload tagged with its static type. -/
structure RValue where
  ty : Ty
  val : Prim
  deriving DecidableEq, Repr

/-- `v.Bool()`. -/
def RValue.goBool : RValue → Bool
  | ⟨_, .pBool b⟩ => b
  | _ => false

/-- `v.Int()`. -/
def RValue.goInt : RValue → Int
  | ⟨_, .pInt n⟩ => n
  | _ => 0

/-- `v.Uint()`. -/
def RValue.goUint : RValue → Nat
  | ⟨_, .pUint n⟩ => n
  | _ => 0

/-- `v.Float()` (opaque representation). -/
def RValue.goFloat : RValue → Nat
  | ⟨_, .pFloat b⟩ => b
  | _ => 0

/-- `v.Complex()` (opaque representation). -/
def RValue.goComplex : RValue → Nat
  | ⟨_, .pComplex b⟩ => b
  | _ => 0

/-- `v.String()`. -/
def RValue.goString : RValue → String
  | ⟨_, .pString s⟩ => s
  | _ => ""

/-- `base.True`. -/
def trueV : RValue := ⟨Ty.basic Kind.bool, Prim.pBool true⟩

/-- `base.False`. -/
def falseV : RValue := ⟨Ty.basic Kind.bool, Prim.pBool false⟩

/-- The per-kind extraction-and-conversion performed by the specialized
closures of channel.go — `retv.Bool()`, `int8(retv.Int())`,
`uint(retv.Uint())`, `float32(retv.Float())` and so on.  The float and
complex narrowings are abstracted as truncations of the opaque bit
representation. -/
def readScalar (k : Kind) (v : RValue) : Prim :=
  match k with
  | .bool => .pBool v.goBool
  | .int => .pInt (wrapInt 64 v.goInt)
  | .int8 => .pInt (wrapInt 8 v.goInt)
  | .int16 => .pInt (wrapInt 16 v.goInt)
  | .int32 => .pInt (wrapInt 32 v.goInt)
  | .int64 => .pInt v.goInt
  | .uint => .pUint (v.goUint % 2 ^ 64)
  | .uint8 => .pUint (v.goUint % 2 ^ 8)
  | .uint16 => .pUint (v.goUint % 2 ^ 16)
  | .uint32 => .pUint (v.goUint % 2 ^ 32)
  | .uint64 => .pUint v.goUint
  | .uintptr => .pUint (v.goUint % 2 ^ 64)
  | .float32 => .pFloat (v.goFloat % 2 ^ 32)
  | .float64 => .pFloat v.goFloat
  | .complex64 => .pComplex (v.goComplex % 2 ^ 64)
  | .complex128 => .pComplex v.goComplex
  | .string => .pString v.goString
  | _ => .pNil

/-- The zero payload of a kind (`Type.Zero()` representation). -/
def zeroPrim (k : Kind) : Prim :=
  match k with
  | .bool => .pBool false
  | .int | .int8 | .int16 | .int32 | .int64 => .pInt 0
  | .uint | .uint8 | .uint16 | .uint32 | .uint64 | .uintptr => .pUint 0
  | .float32 | .float64 => .pFloat 0
  | .complex64 | .complex128 => .pComplex 0
  | .string => .pString ""
  | _ => .pNil

/-- The zero `reflect.Value` of a type, as produced by a receive from a
closed, drained channel. -/
def zeroRValue (t : Ty) : RValue := ⟨t, zeroPrim t.kind⟩

/-- Modelled from the spec: constant convertibility and conversion to a
target kind (section 4.1 constant folding; the Type capability's
convertibility check of section 6).  Conversion between integer kinds is
range-checked as Go constant conversion is; same-kind conversions are
identities; cross-family numeric conversions are not exercised by the
channel compiler and are left undefined (`none`). -/
def constConvert : Prim → Kind → Option Prim
  | .pBool b, .bool => some (.pBool b)
  | .pInt n, .int => if wrapInt 64 n = n then some (.pInt n) else none
  | .pInt n, .int8 => if wrapInt 8 n = n then some (.pInt n) else none
  | .pInt n, .int16 => if wrapInt 16 n = n then some (.pInt n) else none
  | .pInt n, .int32 => if wrapInt 32 n = n then some (.pInt n) else none
  | .pInt n, .int64 => if wrapInt 64 n = n then some (.pInt n) else none
  | .pInt n, .uint => if 0 ≤ n ∧ n < 2 ^ 64 then some (.pUint n.toNat) else none
  | .pInt n, .uint8 => if 0 ≤ n ∧ n < 2 ^ 8 then some (.pUint n.toNat) else none
  | .pInt n, .uint16 => if 0 ≤ n ∧ n < 2 ^ 16 then some (.pUint n.toNat) else none
  | .pInt n, .uint32 => if 0 ≤ n ∧ n < 2 ^ 32 then some (.pUint n.toNat) else none
  | .pInt n, .uint64 => if 0 ≤ n ∧ n < 2 ^ 64 then some (.pUint n.toNat) else none
  | .pInt n, .uintptr => if 0 ≤ n ∧ n < 2 ^ 64 then some (.pUint n.toNat) else none
  | .pUint n, .uint => if n < 2 ^ 64 then some (.pUint n) else none
  | .pUint n, .uint8 => if n < 2 ^ 8 then some (.pUint n) else none
  | .pUint n, .uint16 => if n < 2 ^ 16 then some (.pUint n) else none
  | .pUint n, .uint32 => if n < 2 ^ 32 then some (.pUint n) else none
  | .pUint n, .uint64 => if n < 2 ^ 64 then some (.pUint n) else none
  | .pUint n, .uintptr => if n < 2 ^ 64 then some (.pUint n) else none
  | .pFloat b, .float32 => some (.pFloat (b % 2 ^ 32))
  | .pFloat b, .float64 => some (.pFloat b)
  | .pComplex b, .complex64 => some (.pComplex (b % 2 ^ 64))
  | .pComplex b, .complex128 => some (.pComplex b)
  | .pString s, .string => some (.pString s)
  | _, _ => none

/-- `value.Convert(rtelem)`: the reflective conversion emitted on the
generic send path.  It is only reached for types that were statically
assignable, hence of the same underlying kind, where it re-tags the
value (normalizing the scalar representation). -/
def RValue.Convert (v : RValue) (t : Ty) : RValue :=
  if t.kind.isScalar then ⟨t, readScalar t.kind v⟩ else ⟨t, v.val⟩

/-- The state of one channel: its element type, its pending buffered
values (raw representations, as in the Go runtime) and whether it has
been closed. -/
structure ChanState where
  elemTy : Ty
  buffer : List Prim
  closed : Bool
  deriving DecidableEq, Repr

/-- The externally-owned channel store; values of channel kind reference
entries of the `World` by id. -/
abbrev World := List ChanState

/-- `channel.Recv()` on a `reflect.Value` of channel kind: yields the
next buffered value (typed with the channel's element type) and `ok =
true`; on a closed, drained channel yields the element type's zero value
and `ok = false`; blocks (`none`) on an open, empty channel; faults
(`none`) on a non-channel value. -/
def chanRecv (w : World) (chv : RValue) : Option (RValue × Bool × World) :=
  match chv.val with
  | .pChan id =>
    match w.get? id with
    | none => none
    | some ch =>
      match ch.buffer with
      | v :: rest => some (⟨ch.elemTy, v⟩, true, w.set id { ch with buffer := rest })
      | [] => if ch.closed then some (zeroRValue ch.elemTy, false, w) else none
  | _ => none

/-- `channel.Send(v)` on a `reflect.Value` of channel kind: enqueues the
value's raw representation; sending on a closed channel is a runtime
fault (`none`). -/
def chanSend (w : World) (chv : RValue) (v : RValue) : Option World :=
  match chv.val with
  | .pChan id =>
    match w.get? id with
    | none => none
    | some ch =>
      if ch.closed then none
      else some (w.set id { ch with buffer := ch.buffer ++ [v.val] })
  | _ => none

/-- The type assertion `channel.Interface().(chan T)` (direction-qualified
as `dir` dictates): succeeds exactly when the value's static type is the
asserted statically-typed native channel type, and yields the channel
id. -/
def assertChanT (chv : RValue) (dir : ChanDir) (k : Kind) : Option Nat :=
  match chv.val with
  | .pChan id => if chv.ty = Ty.chanOf dir (Ty.basic k) then some id else none
  | _ => none

/-- The native `<-channel` on a statically-typed channel: yields the raw
element representation; a closed, drained channel yields the kind's zero
payload; an open, empty channel blocks (`none`). -/
def nativeRecv (w : World) (id : Nat) (k : Kind) : Option (Prim × World) :=
  match w.get? id with
  | none => none
  | some ch =>
    match ch.buffer with
    | v :: rest => some (v, w.set id { ch with buffer := rest })
    | [] => if ch.closed then some (zeroPrim k, w) else none

/-- The native `channel <- v` on a statically-typed channel: enqueues the
raw representation; sending on a closed channel is a runtime fault
(`none`). -/
def nativeSend (w : World) (id : Nat) (v : Prim) : Option World :=
  match w.get? id with
  | none => none
  | some ch =>
    if ch.closed then none
    else some (w.set id { ch with buffer := ch.buffer ++ [v] })

/-- One activation record: the variable slots and, for the function-level
environment, the live instruction pointer.  Following the design notes
of the specification (section 9), the flat code array is kept outside
the environment and passed to the executor explicitly. -/
structure Env where
  slots : List RValue
  ip : Nat
  deriving DecidableEq, Repr

/-- A compiled single-value callable, `func(*Env) r.Value`.  It may read
the environment and perform channel effects on the world; `none` models
blocking or a runtime fault. -/
def XFun : Type := Env → World → Option (RValue × World)

/-- A compiled multi-value callable, `func(*Env) (r.Value, []r.Value)`. -/
def XVFunT : Type := Env → World → Option ((RValue × List RValue) × World)

/-- A compiled kind-specialized callable, `func(*Env) T` for a scalar
type `T`, yielding the raw representation. -/
def PrimFun : Type := Env → World → Option (Prim × World)

/-- The multi-value closures relevant here: an arbitrary compiled
callable, or the two-value receive closure built by `Comp.Recv` around a
channel callable. -/
inductive XVClosure where
  | ofFn (f : XVFunT)
  | recvXV (channelfun : XFun)

/-- The kind-specialized closures relevant here: an arbitrary compiled
callable, the generic-tier receive (through `channel.Recv()` plus the
kind's conversion), or the native-tier receive (type assertion to the
statically-typed channel plus native `<-channel`), both built by
`Comp.Recv1`. -/
inductive TypedClosure where
  | ofFn (f : PrimFun)
  | recv1Gen (k : Kind) (channelfun : XFun)
  | recv1Native (k : Kind) (dir : ChanDir) (channelfun : XFun)

/-- The generic `r.Value` closures relevant here: an arbitrary compiled
callable, or the default receive closure built by `Comp.Recv1` for
non-scalar element kinds. -/
inductive GenClosure where
  | ofFn (f : XFun)
  | recv1GenValue (channelfun : XFun)

/-- The compiled callable of an expression (`Expr.Fun`), classified by
shape as the source's type switches do: multi-value, kind-specialized,
or generic. -/
inductive ExprFun where
  | xv (f : XVClosure)
  | typed (k : Kind) (f : TypedClosure)
  | generic (f : GenClosure)

/-- Semantics of a multi-value closure. -/
def XVClosure.run : XVClosure → XVFunT
  | .ofFn f => f
  | .recvXV channelfun => fun env w =>
      match channelfun env w with
      | none => none
      | some (channel, w1) =>
        match chanRecv w1 channel with
        | none => none
        | some (retv, ok, w2) =>
          some ((retv, [retv, if ok then trueV else falseV]), w2)

/-- Semantics of a kind-specialized closure. -/
def TypedClosure.run : TypedClosure → PrimFun
  | .ofFn f => f
  | .recv1Gen k channelfun => fun env w =>
      match channelfun env w with
      | none => none
      | some (channel, w1) =>
        match chanRecv w1 channel with
        | none => none
        | some (retv, _, w2) => some (readScalar k retv, w2)
  | .recv1Native k dir channelfun => fun env w =>
      match channelfun env w with
      | none => none
      | some (chv, w1) =>
        match assertChanT chv dir k with
        | none => none
        | some id => nativeRecv w1 id k

/-- Semantics of a generic closure. -/
def GenClosure.run : GenClosure → XFun
  | .ofFn f => f
  | .recv1GenValue channelfun => fun env w =>
      match channelfun env w with
      | none => none
      | some (channel, w1) =>
        match chanRecv w1 channel with
        | none => none
        | some (retv, _, w2) => some (retv, w2)

/-- Whether a kind-specialized closure is on the native fast path
(operating directly on the statically-typed native channel). -/
def TypedClosure.isNativePath : TypedClosure → Bool
  | .recv1Native _ _ _ => true
  | _ => false

/-- Whether a compiled expression callable is on the native fast path. -/
def ExprFun.isNativePath : ExprFun → Bool
  | .typed _ f => f.isNativePath
  | _ => false

/-- Whether a compiled callable has the multi-value shape
(`func(*Env) (r.Value, []r.Value)`), as tested by the source's type
switches. -/
def ExprFun.isXV : ExprFun → Bool
  | .xv _ => true
  | _ => false

/-- `channel, _ := channelfun(env)`: keep the single-value component of a
multi-value callable. -/
def xvFirst (x : XVClosure) : XFun := fun env w =>
  match x.run env w with
  | none => none
  | some ((v, _), w') => some (v, w')

/-- A compiled expression (`Expr`): its static type (possibly missing),
the result types of a multi-value expression, its compiled callable,
and — for compile-time constants — the folded literal value. -/
structure Expr where
  type : Option Ty
  types : List Ty := []
  fn : ExprFun
  isConst : Bool := false
  value : RValue := ⟨Ty.basic Kind.invalid, Prim.pNil⟩

/-- Modelled from the spec: the expression compiler's `AsX1` view
(section 4.1: callers pick the view matching their syntactic context)
converts any compiled callable to a single-value callable yielding an
`r.Value` tagged with the expression's static type.  Its implementation
lives outside this file's source. -/
def Expr.AsX1 (e : Expr) : XFun := fun env w =>
  match e.fn with
  | .xv f =>
    match f.run env w with
    | none => none
    | some ((v, _), w') => some (v, w')
  | .typed k f =>
    match f.run env w with
    | none => none
    | some (p, w') => some (⟨(e.type.getD (Ty.basic k)), p⟩, w')
  | .generic f => f.run env w

/-- `expr.Const()`. -/
def Expr.Const (e : Expr) : Bool := e.isConst

/-- Modelled from the spec: `expr.ConstTo(t)` converts a compile-time
constant to the target type at compile time (section 4.1 constant
folding), failing when the constant is not convertible.  Its
implementation lives outside this file's source. -/
def Expr.ConstTo (e : Expr) (t : Ty) : Option Expr :=
  match constConvert e.value.val t.kind with
  | none => none
  | some p => some { e with type := some t, value := ⟨t, p⟩ }

/-- A compilation error (source position and offending node omitted from
the model). -/
structure CompileError where
  msg : String
  deriving DecidableEq, Repr

def errExpectingChannel : String := "expecting channel, found"

def errRecvFromSendOnly : String := "cannot receive from send-only channel"

def errSendToNonChannel : String := "cannot send to non-channel type"

def errSendToRecvOnly : String := "cannot send to receive-only channel type"

def errCannotUseInSend : String := "cannot use as type in send"

def errCannotConvertConst : String := "cannot convert constant to type"

/-- `c.badUnaryExpr(reason, node, xe)`: report a compile error for a
unary expression. -/
def badUnaryExpr (reason : String) (_xe : Expr) : CompileError := ⟨reason⟩

/-- The compiled statements (instructions) emitted by `Comp.Send`, as
tagged records, plus a terminal instruction: the constant send and the
dynamic-operand send, each in its native (statically-typed channel,
per-kind) and generic (reflective) variants. -/
inductive Stmt where
  | sendConstNative (channelfun : XFun) (dir : ChanDir) (k : Kind) (value : Prim)
  | sendConstGeneric (channelfun : XFun) (v : RValue)
  | sendExprNative (channelfun : XFun) (dir : ChanDir) (k : Kind) (exprfun : PrimFun)
  | sendExprGeneric (channelfun : XFun) (exprfun : XFun) (rtelem : Ty)
  | ret

/-- The effect of one instruction on the environment's world: evaluate
the channel callable, perform the send, yield the updated world.  The
terminal instruction has no successor and no effect. -/
def Stmt.effect (s : Stmt) (env : Env) (w : World) : Option World :=
  match s with
  | .sendConstNative channelfun dir k value =>
    match channelfun env w with
    | none => none
    | some (chv, w1) =>
      match assertChanT chv dir k with
      | none => none
      | some id => nativeSend w1 id value
  | .sendConstGeneric channelfun v =>
    match channelfun env w with
    | none => none
    | some (chv, w1) => chanSend w1 chv v
  | .sendExprNative channelfun dir k exprfun =>
    match channelfun env w with
    | none => none
    | some (chv, w1) =>
      match assertChanT chv dir k with
      | none => none
      | some id =>
        match exprfun env w1 with
        | none => none
        | some (p, w2) => nativeSend w2 id p
  | .sendExprGeneric channelfun exprfun rtelem =>
    match channelfun env w with
    | none => none
    | some (chv, w1) =>
      match exprfun env w1 with
      | none => none
      | some (v, w2) =>
        chanSend w2 chv (if v.ty ≠ rtelem then v.Convert rtelem else v)
  | .ret => none

/-- `env.IP++; return env.Code[env.IP], env`: advance the instruction
pointer and fetch the instruction at the new pointer. -/
def execNext (code : List Stmt) (env : Env) (w : World) :
    Option (Stmt × Env × World) :=
  match code.get? (env.ip + 1) with
  | none => none
  | some i => some (i, { env with ip := env.ip + 1 }, w)

/-- Execute one instruction: perform its effect, then advance the
instruction pointer by one and return the instruction at the new
pointer together with the environment. -/
def Stmt.exec (s : Stmt) (code : List Stmt) (env : Env) (w : World) :
    Option (Stmt × Env × World) :=
  match s.effect env w with
  | none => none
  | some w' => execNext code env w'

/-- Whether an instruction is on the native fast path. -/
def Stmt.isNativePath : Stmt → Bool
  | .sendConstNative _ _ _ _ => true
  | .sendExprNative _ _ _ _ => true
  | _ => false

/-- The compiler state: the current function's flat instruction
sequence. -/
structure Comp where
  code : List Stmt

/-- `c.Code.Append(stmt)`. -/
def Comp.append (c : Comp) (s : Stmt) : Comp := { c with code := c.code ++ [s] }

/-- The channel callable used by the receive compilers: the multi-value
shape keeps its first component, any other shape goes through `AsX1`. -/
def recvChannelFun (xe : Expr) : XFun :=
  match xe.fn with
  | ExprFun.xv x => xvFirst x
  | _ => Expr.AsX1 xe

/-- Modelled from the spec: `exprXV` packages a multi-value callable with
its result types; the expression's primary type is the first of the
list (section 4.1, two-value view).  Its implementation lives outside
this file's source. -/
def exprXV (types : List Ty) (f : ExprFun) : Expr :=
  { type := types.head?, types := types, fn := f }

/-- Modelled from the spec: `exprFun` packages a typed callable with its
result type.  Its implementation lives outside this file's source. -/
def exprFun (t : Ty) (f : ExprFun) : Expr :=
  { type := some t, fn := f }

/-- `Comp.Recv`: compile a two-value (comma-ok) channel receive.  The
operand must be of channel kind with receive permission; the compiled
closure performs the reflective `channel.Recv()` and returns the
received value together with the pair of the value and the ok flag. -/
def Comp.Recv (_c : Comp) (xe : Expr) : Except CompileError Expr :=
  if tyKind xe.type ≠ Kind.chan then
    Except.error (badUnaryExpr errExpectingChannel xe)
  else if (tyChanDir xe.type).hasRecv = false then
    Except.error (badUnaryExpr errRecvFromSendOnly xe)
  else
    Except.ok (exprXV [tyElem xe.type, Ty.basic Kind.bool]
      (ExprFun.xv (XVClosure.recvXV (recvChannelFun xe))))

/-- The kind dispatch of `Comp.Recv1` when the channel expression has the
multi-value shape: one generic-tier conversion closure per scalar kind,
the generic value closure otherwise. -/
def recv1FunXV (telem : Ty) (channelfun : XFun) : ExprFun :=
  match telem.kind with
  | Kind.bool => ExprFun.typed Kind.bool (TypedClosure.recv1Gen Kind.bool channelfun)
  | Kind.int => ExprFun.typed Kind.int (TypedClosure.recv1Gen Kind.int channelfun)
  | Kind.int8 => ExprFun.typed Kind.int8 (TypedClosure.recv1Gen Kind.int8 channelfun)
  | Kind.int16 => ExprFun.typed Kind.int16 (TypedClosure.recv1Gen Kind.int16 channelfun)
  | Kind.int32 => ExprFun.typed Kind.int32 (TypedClosure.recv1Gen Kind.int32 channelfun)
  | Kind.int64 => ExprFun.typed Kind.int64 (TypedClosure.recv1Gen Kind.int64 channelfun)
  | Kind.uint => ExprFun.typed Kind.uint (TypedClosure.recv1Gen Kind.uint channelfun)
  | Kind.uint8 => ExprFun.typed Kind.uint8 (TypedClosure.recv1Gen Kind.uint8 channelfun)
  | Kind.uint16 => ExprFun.typed Kind.uint16 (TypedClosure.recv1Gen Kind.uint16 channelfun)
  | Kind.uint32 => ExprFun.typed Kind.uint32 (TypedClosure.recv1Gen Kind.uint32 channelfun)
  | Kind.uint64 => ExprFun.typed Kind.uint64 (TypedClosure.recv1Gen Kind.uint64 channelfun)
  | Kind.uintptr => ExprFun.typed Kind.uintptr (TypedClosure.recv1Gen Kind.uintptr channelfun)
  | Kind.float32 => ExprFun.typed Kind.float32 (TypedClosure.recv1Gen Kind.float32 channelfun)
  | Kind.float64 => ExprFun.typed Kind.float64 (TypedClosure.recv1Gen Kind.float64 channelfun)
  | Kind.complex64 => ExprFun.typed Kind.complex64 (TypedClosure.recv1Gen Kind.complex64 channelfun)
  | Kind.complex128 => ExprFun.typed Kind.complex128 (TypedClosure.recv1Gen Kind.complex128 channelfun)
  | Kind.string => ExprFun.typed Kind.string (TypedClosure.recv1Gen Kind.string channelfun)
  | _ => ExprFun.generic (GenClosure.recv1GenValue channelfun)

/-- The kind dispatch of `Comp.Recv1` in the default (single-valued
channel callable) branch: for each scalar kind, a native closure on the
statically-typed channel when the element type is exactly the
predefined basic type (direction-qualified when the channel is
receive-only), the generic-tier conversion closure otherwise; the
generic value closure for non-scalar kinds. -/
def recv1FunX1 (telem : Ty) (recvonly : Bool) (channelfun : XFun) : ExprFun :=
  match telem.kind with
  | Kind.bool =>
    if telem ≠ BasicType Kind.bool then
      ExprFun.typed Kind.bool (TypedClosure.recv1Gen Kind.bool channelfun)
    else
      ExprFun.typed Kind.bool (TypedClosure.recv1Native Kind.bool
        (if recvonly then ChanDir.recvDir else ChanDir.bothDir) channelfun)
  | Kind.int =>
    if telem ≠ BasicType Kind.int then
      ExprFun.typed Kind.int (TypedClosure.recv1Gen Kind.int channelfun)
    else
      ExprFun.typed Kind.int (TypedClosure.recv1Native Kind.int
        (if recvonly then ChanDir.recvDir else ChanDir.bothDir) channelfun)
  | Kind.int8 =>
    if telem ≠ BasicType Kind.int8 then
      ExprFun.typed Kind.int8 (TypedClosure.recv1Gen Kind.int8 channelfun)
    else
      ExprFun.typed Kind.int8 (TypedClosure.recv1Native Kind.int8
        (if recvonly then ChanDir.recvDir else ChanDir.bothDir) channelfun)
  | Kind.int16 =>
    if telem ≠ BasicType Kind.int16 then
      ExprFun.typed Kind.int16 (TypedClosure.recv1Gen Kind.int16 channelfun)
    else
      ExprFun.typed Kind.int16 (TypedClosure.recv1Native Kind.int16
        (if recvonly then ChanDir.recvDir else ChanDir.bothDir) channelfun)
  | Kind.int32 =>
    if telem ≠ BasicType Kind.int32 then
      ExprFun.typed Kind.int32 (TypedClosure.recv1Gen Kind.int32 channelfun)
    else
      ExprFun.typed Kind.int32 (TypedClosure.recv1Native Kind.int32
        (if recvonly then ChanDir.recvDir else ChanDir.bothDir) channelfun)
  | Kind.int64 =>
    if telem ≠ BasicType Kind.int64 then
      ExprFun.typed Kind.int64 (TypedClosure.recv1Gen Kind.int64 channelfun)
    else
      ExprFun.typed Kind.int64 (TypedClosure.recv1Native Kind.int64
        (if recvonly then ChanDir.recvDir else ChanDir.bothDir) channelfun)
  | Kind.uint =>
    if telem ≠ BasicType Kind.uint then
      ExprFun.typed Kind.uint (TypedClosure.recv1Gen Kind.uint channelfun)
    else
      ExprFun.typed Kind.uint (TypedClosure.recv1Native Kind.uint
        (if recvonly then ChanDir.recvDir else ChanDir.bothDir) channelfun)
  | Kind.uint8 =>
    if telem ≠ BasicType Kind.uint8 then
      ExprFun.typed Kind.uint8 (TypedClosure.recv1Gen Kind.uint8 channelfun)
    else
      ExprFun.typed Kind.uint8 (TypedClosure.recv1Native Kind.uint8
        (if recvonly then ChanDir.recvDir else ChanDir.bothDir) channelfun)
  | Kind.uint16 =>
    if telem ≠ BasicType Kind.uint16 then
      ExprFun.typed Kind.uint16 (TypedClosure.recv1Gen Kind.uint16 channelfun)
    else
      ExprFun.typed Kind.uint16 (TypedClosure.recv1Native Kind.uint16
        (if recvonly then ChanDir.recvDir else ChanDir.bothDir) channelfun)
  | Kind.uint32 =>
    if telem ≠ BasicType Kind.uint32 then
      ExprFun.typed Kind.uint32 (TypedClosure.recv1Gen Kind.uint32 channelfun)
    else
      ExprFun.typed Kind.uint32 (TypedClosure.recv1Native Kind.uint32
        (if recvonly then ChanDir.recvDir else ChanDir.bothDir) channelfun)
  | Kind.uint64 =>
    if telem ≠ BasicType Kind.uint64 then
      ExprFun.typed Kind.uint64 (TypedClosure.recv1Gen Kind.uint64 channelfun)
    else
      ExprFun.typed Kind.uint64 (TypedClosure.recv1Native Kind.uint64
        (if recvonly then ChanDir.recvDir else ChanDir.bothDir) channelfun)
  | Kind.uintptr =>
    if telem ≠ BasicType Kind.uintptr then
      ExprFun.typed Kind.uintptr (TypedClosure.recv1Gen Kind.uintptr channelfun)
    else
      ExprFun.typed Kind.uintptr (TypedClosure.recv1Native Kind.uintptr
        (if recvonly then ChanDir.recvDir else ChanDir.bothDir) channelfun)
  | Kind.float32 =>
    if telem ≠ BasicType Kind.float32 then
      ExprFun.typed Kind.float32 (TypedClosure.recv1Gen Kind.float32 channelfun)
    else
      ExprFun.typed Kind.float32 (TypedClosure.recv1Native Kind.float32
        (if recvonly then ChanDir.recvDir else ChanDir.bothDir) channelfun)
  | Kind.float64 =>
    if telem ≠ BasicType Kind.float64 then
      ExprFun.typed Kind.float64 (TypedClosure.recv1Gen Kind.float64 channelfun)
    else
      ExprFun.typed Kind.float64 (TypedClosure.recv1Native Kind.float64
        (if recvonly then ChanDir.recvDir else ChanDir.bothDir) channelfun)
  | Kind.complex64 =>
    if telem ≠ BasicType Kind.complex64 then
      ExprFun.typed Kind.complex64 (TypedClosure.recv1Gen Kind.complex64 channelfun)
    else
      ExprFun.typed Kind.complex64 (TypedClosure.recv1Native Kind.complex64
        (if recvonly then ChanDir.recvDir else ChanDir.bothDir) channelfun)
  | Kind.complex128 =>
    if telem ≠ BasicType Kind.complex128 then
      ExprFun.typed Kind.complex128 (TypedClosure.recv1Gen Kind.complex128 channelfun)
    else
      ExprFun.typed Kind.complex128 (TypedClosure.recv1Native Kind.complex128
        (if recvonly then ChanDir.recvDir else ChanDir.bothDir) channelfun)
  | Kind.string =>
    if telem ≠ BasicType Kind.string then
      ExprFun.typed Kind.string (TypedClosure.recv1Gen Kind.string channelfun)
    else
      ExprFun.typed Kind.string (TypedClosure.recv1Native Kind.string
        (if recvonly then ChanDir.recvDir else ChanDir.bothDir) channelfun)
  | _ => ExprFun.generic (GenClosure.recv1GenValue channelfun)

/-- `Comp.Recv1`: compile a single-value channel receive.  The operand
must be of channel kind with receive permission; the result type is the
channel's element type; the closure is dispatched on the element type's
kind, with a native fast path when the element type is exactly the
predefined basic type and the channel callable is single-valued. -/
def Comp.Recv1 (_c : Comp) (xe : Expr) : Except CompileError Expr :=
  if tyKind xe.type ≠ Kind.chan then
    Except.error (badUnaryExpr errExpectingChannel xe)
  else if (tyChanDir xe.type).hasRecv = false then
    Except.error (badUnaryExpr errRecvFromSendOnly xe)
  else
    Except.ok (exprFun (tyElem xe.type)
      (match xe.fn with
       | ExprFun.xv x => recv1FunXV (tyElem xe.type) (xvFirst x)
       | _ => recv1FunX1 (tyElem xe.type)
           (decide (tyChanDir xe.type = ChanDir.recvDir)) (Expr.AsX1 xe)))

/-- The direction asserted by the send closures: `chan<- T` when the
channel is declared send-only, `chan T` otherwise. -/
def sendAssertDir (d : ChanDir) : ChanDir :=
  if d = ChanDir.sendDir then ChanDir.sendDir else ChanDir.bothDir

/-- The constant-operand send switch of `Comp.Send`: dispatch on the
element type's identity against each predefined basic type (a native
per-kind instruction embedding the converted literal), with the generic
reflective `channel.Send(v)` as the default. -/
def constSendStmt (channelfun : XFun) (dir : ChanDir) (telem : Ty) (v : RValue) : Stmt :=
  match telem with
  | Ty.basic Kind.bool => Stmt.sendConstNative channelfun dir Kind.bool (readScalar Kind.bool v)
  | Ty.basic Kind.int => Stmt.sendConstNative channelfun dir Kind.int (readScalar Kind.int v)
  | Ty.basic Kind.int8 => Stmt.sendConstNative channelfun dir Kind.int8 (readScalar Kind.int8 v)
  | Ty.basic Kind.int16 => Stmt.sendConstNative channelfun dir Kind.int16 (readScalar Kind.int16 v)
  | Ty.basic Kind.int32 => Stmt.sendConstNative channelfun dir Kind.int32 (readScalar Kind.int32 v)
  | Ty.basic Kind.int64 => Stmt.sendConstNative channelfun dir Kind.int64 (readScalar Kind.int64 v)
  | Ty.basic Kind.uint => Stmt.sendConstNative channelfun dir Kind.uint (readScalar Kind.uint v)
  | Ty.basic Kind.uint8 => Stmt.sendConstNative channelfun dir Kind.uint8 (readScalar Kind.uint8 v)
  | Ty.basic Kind.uint16 => Stmt.sendConstNative channelfun dir Kind.uint16 (readScalar Kind.uint16 v)
  | Ty.basic Kind.uint32 => Stmt.sendConstNative channelfun dir Kind.uint32 (readScalar Kind.uint32 v)
  | Ty.basic Kind.uint64 => Stmt.sendConstNative channelfun dir Kind.uint64 (readScalar Kind.uint64 v)
  | Ty.basic Kind.uintptr => Stmt.sendConstNative channelfun dir Kind.uintptr (readScalar Kind.uintptr v)
  | Ty.basic Kind.float32 => Stmt.sendConstNative channelfun dir Kind.float32 (readScalar Kind.float32 v)
  | Ty.basic Kind.float64 => Stmt.sendConstNative channelfun dir Kind.float64 (readScalar Kind.float64 v)
  | Ty.basic Kind.complex64 => Stmt.sendConstNative channelfun dir Kind.complex64 (readScalar Kind.complex64 v)
  | Ty.basic Kind.complex128 => Stmt.sendConstNative channelfun dir Kind.complex128 (readScalar Kind.complex128 v)
  | Ty.basic Kind.string => Stmt.sendConstNative channelfun dir Kind.string (readScalar Kind.string v)
  | _ => Stmt.sendConstGeneric channelfun v

/-- The dynamic-operand send switch of `Comp.Send`: dispatch on the
element type's identity against each predefined basic type together
with the operand callable's shape (the source's
`expr.Fun.(func(*Env) T)` assertion); any mismatch falls back to the
generic reflective send with an entry conversion. -/
def dynSendStmt (channelfun : XFun) (dir : ChanDir) (telem : Ty) (value : Expr) : Stmt :=
  match telem, value.fn with
  | Ty.basic Kind.bool, ExprFun.typed Kind.bool f => Stmt.sendExprNative channelfun dir Kind.bool f.run
  | Ty.basic Kind.int, ExprFun.typed Kind.int f => Stmt.sendExprNative channelfun dir Kind.int f.run
  | Ty.basic Kind.int8, ExprFun.typed Kind.int8 f => Stmt.sendExprNative channelfun dir Kind.int8 f.run
  | Ty.basic Kind.int16, ExprFun.typed Kind.int16 f => Stmt.sendExprNative channelfun dir Kind.int16 f.run
  | Ty.basic Kind.int32, ExprFun.typed Kind.int32 f => Stmt.sendExprNative channelfun dir Kind.int32 f.run
  | Ty.basic Kind.int64, ExprFun.typed Kind.int64 f => Stmt.sendExprNative channelfun dir Kind.int64 f.run
  | Ty.basic Kind.uint, ExprFun.typed Kind.uint f => Stmt.sendExprNative channelfun dir Kind.uint f.run
  | Ty.basic Kind.uint8, ExprFun.typed Kind.uint8 f => Stmt.sendExprNative channelfun dir Kind.uint8 f.run
  | Ty.basic Kind.uint16, ExprFun.typed Kind.uint16 f => Stmt.sendExprNative channelfun dir Kind.uint16 f.run
  | Ty.basic Kind.uint32, ExprFun.typed Kind.uint32 f => Stmt.sendExprNative channelfun dir Kind.uint32 f.run
  | Ty.basic Kind.uint64, ExprFun.typed Kind.uint64 f => Stmt.sendExprNative channelfun dir Kind.uint64 f.run
  | Ty.basic Kind.uintptr, ExprFun.typed Kind.uintptr f => Stmt.sendExprNative channelfun dir Kind.uintptr f.run
  | Ty.basic Kind.float32, ExprFun.typed Kind.float32 f => Stmt.sendExprNative channelfun dir Kind.float32 f.run
  | Ty.basic Kind.float64, ExprFun.typed Kind.float64 f => Stmt.sendExprNative channelfun dir Kind.float64 f.run
  | Ty.basic Kind.complex64, ExprFun.typed Kind.complex64 f => Stmt.sendExprNative channelfun dir Kind.complex64 f.run
  | Ty.basic Kind.complex128, ExprFun.typed Kind.complex128 f => Stmt.sendExprNative channelfun dir Kind.complex128 f.run
  | Ty.basic Kind.string, ExprFun.typed Kind.string f => Stmt.sendExprNative channelfun dir Kind.string f.run
  | _, _ => Stmt.sendExprGeneric channelfun (Expr.AsX1 value) telem

/-- Assignability of a possibly-missing operand type
(`expr.Type == nil || !expr.Type.AssignableTo(telem)` is the negation of
this). -/
def tyAssignableTo : Option Ty → Ty → Bool
  | none, _ => false
  | some t, u => t.AssignableTo u

/-- `Comp.Send`: compile a channel send statement.  The channel operand
(already compiled by the expression compiler, which lives outside this
file's source) must be of channel kind with send permission; a constant
operand is converted to the element type at compile time, a dynamic
operand must have a static type assignable to the element type; on
success exactly one instruction is appended to the current code, on a
compile error the error is reported and the code is left unchanged. -/
def Comp.Send (c : Comp) (channel : Expr) (value : Expr) :
    Comp × Option CompileError :=
  if tyKind channel.type ≠ Kind.chan then
    (c, some ⟨errSendToNonChannel⟩)
  else if (tyChanDir channel.type).hasSend = false then
    (c, some ⟨errSendToRecvOnly⟩)
  else if value.Const then
    match value.ConstTo (tyElem channel.type) with
    | none => (c, some ⟨errCannotConvertConst⟩)
    | some expr =>
      (c.append (constSendStmt (Expr.AsX1 channel)
        (sendAssertDir (tyChanDir channel.type)) (tyElem channel.type) expr.value), none)
  else if tyAssignableTo value.type (tyElem channel.type) = false then
    (c, some ⟨errCannotUseInSend⟩)
  else
    (c.append (dynSendStmt (Expr.AsX1 channel)
      (sendAssertDir (tyChanDir channel.type)) (tyElem channel.type) value), none)

/-! Observation helpers: project function-free data out of compilation
results so that concrete instances can be settled by evaluation. -/

/-- Run the two-value closure of a compiled receive expression. -/
def runRecvXVRes (r : Except CompileError Expr) (env : Env) (w : World) :
    Option ((RValue × List RValue) × World) :=
  match r with
  | .ok ex =>
    match ex.fn with
    | .xv x => x.run env w
    | _ => none
  | .error _ => none

/-- Run the closure of a compiled single-value receive expression and
keep the raw payload of the result. -/
def runRecv1Val (r : Except CompileError Expr) (env : Env) (w : World) :
    Option (Prim × World) :=
  match r with
  | .ok ex =>
    match ex.fn with
    | .typed _ f => f.run env w
    | .generic g =>
      match g.run env w with
      | none => none
      | some (v, w') => some (v.val, w')
    | .xv _ => none
  | .error _ => none

/-- The static type of a successfully compiled expression. -/
def resultType (r : Except CompileError Expr) : Option (Option Ty) :=
  match r with
  | .ok ex => some ex.type
  | .error _ => none

/-- The result types of a successfully compiled multi-value expression. -/
def resultTypes (r : Except CompileError Expr) : Option (List Ty) :=
  match r with
  | .ok ex => some ex.types
  | .error _ => none

/-- Whether a successfully compiled expression's closure is on the
native fast path. -/
def resultNative (r : Except CompileError Expr) : Option Bool :=
  match r with
  | .ok ex => some ex.fn.isNativePath
  | .error _ => none

/-- Whether the last instruction of a compiler state's code is on the
native fast path. -/
def lastIsNative (c : Comp) : Option Bool :=
  c.code.getLast?.map Stmt.isNativePath

/-- Execute the effect of the instruction a send compilation appended
and observe the resulting world. -/
def sendEffectWorld (r : Comp × Option CompileError) (env : Env) (w : World) :
    Option World :=
  match r.2, r.1.code.getLast? with
  | none, some s => s.effect env w
  | _, _ => none

/-! Concrete fixtures used by the witnesses and counterexamples. -/

/-- A compiled expression denoting the channel with the given id, typed
as a channel of the given direction and element type. -/
def mkChanExpr (d : ChanDir) (t : Ty) (id : Nat) : Expr :=
  { type := some (Ty.chanOf d t),
    fn := ExprFun.generic (GenClosure.ofFn
      (fun _ w => some (⟨Ty.chanOf d t, Prim.pChan id⟩, w))) }

/-- An empty compiler state. -/
def c0 : Comp := ⟨[]⟩

/-- An environment with no slots at instruction pointer 0. -/
def env0 : Env := ⟨[], 0⟩

/-- A bidirectional channel of the predefined basic `int` type. -/
def intChan0 : Expr := mkChanExpr ChanDir.bothDir (Ty.basic Kind.int) 0

/-- A send-only channel of the predefined basic `int` type. -/
def sendOnlyIntChan : Expr := mkChanExpr ChanDir.sendDir (Ty.basic Kind.int) 0

/-- A receive-only channel of the predefined basic `int` type. -/
def recvOnlyIntChan : Expr := mkChanExpr ChanDir.recvDir (Ty.basic Kind.int) 0

/-- A compile-time integer constant expression. -/
def constIntExpr (n : Int) : Expr :=
  { type := some (Ty.basic Kind.int),
    fn := ExprFun.typed Kind.int (TypedClosure.ofFn (fun _ w => some (Prim.pInt n, w))),
    isConst := true,
    value := ⟨Ty.basic Kind.int, Prim.pInt n⟩ }

/-- The constant 42 after compile-time conversion to the basic `int`
type. -/
def constIntConv42 : Expr :=
  { (constIntExpr 42) with
    type := some (Ty.basic Kind.int)
    value := ⟨Ty.basic Kind.int, Prim.pInt 42⟩ }

/-- A dynamic operand with a missing static type. -/
def dynNoTypeExpr : Expr :=
  { type := none,
    fn := ExprFun.generic (GenClosure.ofFn
      (fun _ w => some (⟨Ty.basic Kind.invalid, Prim.pNil⟩, w))) }

/-- A compiled dynamic operand of the given static type whose callable
has the given scalar kind's specialized shape and yields a fixed
payload. -/
def mkOpExpr (t : Ty) (k : Kind) (q : Prim) : Expr :=
  { type := some t,
    fn := ExprFun.typed k (TypedClosure.ofFn (fun _ w => some (q, w))) }

/-- A dynamic operand of the predefined basic `int` type. -/
def opB (m : Int) : Expr :=
  { type := some (Ty.basic Kind.int),
    fn := ExprFun.typed Kind.int (TypedClosure.ofFn (fun _ w => some (Prim.pInt m, w))) }

/-- A world whose only channel is closed and fully drained. -/
def wClosed : World := [⟨Ty.basic Kind.int, [], true⟩]

/-- A world whose only channel is open and empty. -/
def wOpen : World := [⟨Ty.basic Kind.int, [], false⟩]

/-- A world whose only channel holds one buffered value. -/
def wBuf3 : World := [⟨Ty.basic Kind.int, [Prim.pInt 3], false⟩]

/-- The world after sending 42 on the open empty channel. -/
def wSent42 : World := [⟨Ty.basic Kind.int, [Prim.pInt 42], false⟩]

/-- The instruction compiled for sending the constant 42 on the basic
`int` channel. -/
def sendStmt42 : Stmt :=
  constSendStmt (Expr.AsX1 intChan0) (sendAssertDir ChanDir.bothDir)
    (Ty.basic Kind.int) ⟨Ty.basic Kind.int, Prim.pInt 42⟩

/-- A two-instruction code sequence: the constant send followed by the
terminal instruction. -/
def code0 : List Stmt := [sendStmt42, Stmt.ret]

/-! Theorems. -/

/-- C1: for every channel element type and every channel expression,
compiling a Send onto a channel whose direction lacks send permission
(receive-only) fails with a CompileError, and compiling a Receive
(`Recv`) or ReceiveTwoValue (`Recv1` single-value / `Recv` two-value)
onto a channel whose direction lacks receive permission (send-only)
fails with a CompileError; no instruction is appended and no expression
is produced in those cases. -/
theorem direction_violation_compile_errors (c : Comp) (xe channel value : Expr)
    (e1 e2 : Ty)
    (hsend : channel.type = some (Ty.chanOf ChanDir.recvDir e1))
    (hrecv : xe.type = some (Ty.chanOf ChanDir.sendDir e2)) :
    Comp.Send c channel value = (c, some ⟨errSendToRecvOnly⟩) ∧
    Comp.Recv c xe = Except.error ⟨errRecvFromSendOnly⟩ ∧
    Comp.Recv1 c xe = Except.error ⟨errRecvFromSendOnly⟩ := by
  refine ⟨?_, ?_, ?_⟩ <;>
    simp [Comp.Send, Comp.Recv, Comp.Recv1, hsend, hrecv, tyKind, Ty.kind,
      tyChanDir, Ty.chanDir, ChanDir.hasSend, ChanDir.hasRecv, badUnaryExpr]

/-- Witness for C1 at concrete inputs: a receive-only and a send-only
channel of basic `int` element type. -/
theorem direction_violation_compile_errors_witness :
    Comp.Send c0 recvOnlyIntChan (constIntExpr 1) = (c0, some ⟨errSendToRecvOnly⟩) ∧
    Comp.Recv c0 sendOnlyIntChan = Except.error ⟨errRecvFromSendOnly⟩ ∧
    Comp.Recv1 c0 sendOnlyIntChan = Except.error ⟨errRecvFromSendOnly⟩ :=
  direction_violation_compile_errors c0 sendOnlyIntChan recvOnlyIntChan
    (constIntExpr 1) (Ty.basic Kind.int) (Ty.basic Kind.int) rfl rfl

/-- C6: for every successfully compiled receive, the static result type
of the single-value form (`Recv1`) is exactly the channel's element
type, and the two-value form (`Recv`) yields the pair of the element
type and the boolean type. -/
theorem recv_static_result_types (c : Comp) (xe : Expr) (d : ChanDir) (e : Ty)
    (hty : xe.type = some (Ty.chanOf d e)) (hd : d.hasRecv = true) :
    resultType (Comp.Recv1 c xe) = some (some e) ∧
    resultType (Comp.Recv c xe) = some (some e) ∧
    resultTypes (Comp.Recv c xe) = some [e, Ty.basic Kind.bool] := by
  refine ⟨?_, ?_, ?_⟩ <;>
    simp [Comp.Recv1, Comp.Recv, hty, hd, tyKind, Ty.kind, tyChanDir,
      Ty.chanDir, tyElem, Ty.elem, resultType, resultTypes, exprFun, exprXV]

/-- Witness for C6 at a concrete input: the bidirectional basic `int`
channel. -/
theorem recv_static_result_types_witness :
    resultType (Comp.Recv1 c0 intChan0) = some (some (Ty.basic Kind.int)) ∧
    resultType (Comp.Recv c0 intChan0) = some (some (Ty.basic Kind.int)) ∧
    resultTypes (Comp.Recv c0 intChan0) = some [Ty.basic Kind.int, Ty.basic Kind.bool] :=
  recv_static_result_types c0 intChan0 ChanDir.bothDir (Ty.basic Kind.int) rfl rfl

/-- C10: compiling a Send statement is atomic with respect to the
instruction sequence: on any compile error zero instructions are
appended to the current function's code, and on success exactly one
instruction is appended. -/
theorem send_atomic_append (c : Comp) (channel value : Expr) :
    ((Comp.Send c channel value).2.isSome = true →
      (Comp.Send c channel value).1.code = c.code) ∧
    ((Comp.Send c channel value).2 = none →
      (Comp.Send c channel value).1.code.length = c.code.length + 1) := by
  unfold Comp.Send
  split
  · simp
  · split
    · simp
    · split
      · cases h : value.ConstTo (tyElem channel.type) <;> simp [h, Comp.append]
      · split
        · simp
        · simp [Comp.append]

/-- Witness for C10 at concrete inputs: a successful constant send
appends one instruction; a failing send appends none. -/
theorem send_atomic_append_witness :
    (Comp.Send c0 intChan0 (constIntExpr 42)).1.code.length = c0.code.length + 1 ∧
    (Comp.Send c0 intChan0 dynNoTypeExpr).1.code = c0.code :=
  ⟨(send_atomic_append c0 intChan0 (constIntExpr 42)).2 rfl,
   (send_atomic_append c0 intChan0 dynNoTypeExpr).1 rfl⟩

/-- C4: for every compilation of a Send statement over a send-permitted
channel, a constant operand is converted to the channel's element type
at compile time (the converted literal is what the single emitted
instruction embeds), while a non-constant operand whose static type is
missing or not assignable to the element type makes compilation fail
with the "cannot use as type in send" CompileError, appending no
instruction. -/
theorem send_operand_checks (c : Comp) (channel value : Expr) (d : ChanDir) (e : Ty)
    (hty : channel.type = some (Ty.chanOf d e)) (hd : d.hasSend = true) :
    (value.Const = false → tyAssignableTo value.type e = false →
      Comp.Send c channel value = (c, some ⟨errCannotUseInSend⟩)) ∧
    (value.Const = true → ∀ expr, value.ConstTo e = some expr →
      Comp.Send c channel value =
        (c.append (constSendStmt (Expr.AsX1 channel) (sendAssertDir d) e expr.value),
          none)) := by
  constructor
  · intro h1 h2
    simp [Comp.Send, hty, hd, h1, h2, tyKind, Ty.kind, tyChanDir, Ty.chanDir,
      tyElem, Ty.elem]
  · intro h1 expr h2
    simp [Comp.Send, hty, hd, h1, h2, tyKind, Ty.kind, tyChanDir, Ty.chanDir,
      tyElem, Ty.elem]

/-- Witness for C4 at concrete inputs: a typeless dynamic operand is
rejected with the send diagnostic; the constant 42 is folded and
converted at compile time into the emitted instruction. -/
theorem send_operand_checks_witness :
    Comp.Send c0 intChan0 dynNoTypeExpr = (c0, some ⟨errCannotUseInSend⟩) ∧
    Comp.Send c0 intChan0 (constIntExpr 42) =
      (c0.append (constSendStmt (Expr.AsX1 intChan0) (sendAssertDir ChanDir.bothDir)
        (Ty.basic Kind.int) constIntConv42.value), none) :=
  ⟨(send_operand_checks c0 intChan0 dynNoTypeExpr ChanDir.bothDir
      (Ty.basic Kind.int) rfl rfl).1 rfl rfl,
   (send_operand_checks c0 intChan0 (constIntExpr 42) ChanDir.bothDir
      (Ty.basic Kind.int) rfl rfl).2 rfl constIntConv42 (by rfl)⟩

/-- Helper: any instruction execution that succeeds advances the
instruction pointer by exactly one, leaves the variable slots
unchanged, and returns the instruction found at the new pointer. -/
theorem exec_step_shape (s : Stmt) (code : List Stmt) (env env' : Env)
    (w w' : World) (j : Stmt)
    (h : s.exec code env w = some (j, env', w')) :
    env'.ip = env.ip + 1 ∧ env'.slots = env.slots ∧
    code.get? (env.ip + 1) = some j := by
  unfold Stmt.exec at h
  cases he : s.effect env w with
  | none => rw [he] at h; exact absurd h (by simp)
  | some w2 =>
    rw [he] at h
    unfold execNext at h
    cases hc : code.get? (env.ip + 1) with
    | none => rw [hc] at h; exact absurd h (by simp)
    | some i =>
      rw [hc] at h
      simp only [Option.some.injEq, Prod.mk.injEq] at h
      obtain ⟨h1, h2, h3⟩ := h
      subst h2
      exact ⟨rfl, rfl, congrArg some h1⟩

/-- C7: every instruction compiled by Send is a sequential instruction:
when executed against an environment, after performing the send it
increments the environment's instruction pointer by exactly one, leaves
the environment's other state (the variable slots) unchanged, and
returns the instruction at the new pointer together with the
environment. -/
theorem send_stmt_sequential (c : Comp) (channel value : Expr) (s : Stmt)
    (_hs : (Comp.Send c channel value).1.code = c.code ++ [s])
    (code : List Stmt) (env env' : Env) (w w' : World) (j : Stmt)
    (hexec : s.exec code env w = some (j, env', w')) :
    env'.ip = env.ip + 1 ∧ env'.slots = env.slots ∧
    code.get? (env.ip + 1) = some j :=
  exec_step_shape s code env env' w w' j hexec

/-- Witness for C7: executing the compiled constant send at pointer 0
of a two-instruction code sequence steps to pointer 1 and returns the
terminal instruction with the slots unchanged. -/
theorem send_stmt_sequential_witness :
    (⟨[], 1⟩ : Env).ip = env0.ip + 1 ∧ (⟨[], 1⟩ : Env).slots = env0.slots ∧
    code0.get? (env0.ip + 1) = some Stmt.ret :=
  send_stmt_sequential c0 intChan0 (constIntExpr 42) sendStmt42 (by rfl)
    code0 env0 ⟨[], 1⟩ wOpen wSent42 Stmt.ret (by rfl)

/-- C9: for every closure compiled by the two-value receive and every
environment, the single-value result it returns and the first component
of its two-value result are the identical received value, and the
second component is exactly the boolean true when the runtime receive
reported ok and false otherwise. -/
theorem recv_two_views_agree (c : Comp) (xe : Expr) (d : ChanDir) (e : Ty)
    (hty : xe.type = some (Ty.chanOf d e)) (hd : d.hasRecv = true)
    (env : Env) (w w1 w2 : World) (chv retv : RValue) (ok : Bool)
    (hch : recvChannelFun xe env w = some (chv, w1))
    (hrecv : chanRecv w1 chv = some (retv, ok, w2)) :
    runRecvXVRes (Comp.Recv c xe) env w
      = some ((retv, [retv, if ok then trueV else falseV]), w2) := by
  simp [Comp.Recv, hty, hd, tyKind, Ty.kind, tyChanDir, Ty.chanDir,
    runRecvXVRes, XVClosure.run, hch, hrecv, exprXV]

/-- Witness for C9: receiving the buffered value 3 yields it as both
the single-value result and the first list component, with the true
flag. -/
theorem recv_two_views_agree_witness :
    runRecvXVRes (Comp.Recv c0 intChan0) env0 wBuf3
      = some ((⟨Ty.basic Kind.int, Prim.pInt 3⟩,
          [⟨Ty.basic Kind.int, Prim.pInt 3⟩, if true then trueV else falseV]),
          wOpen) :=
  recv_two_views_agree c0 intChan0 ChanDir.bothDir (Ty.basic Kind.int) rfl rfl
    env0 wBuf3 wBuf3 wOpen
    ⟨Ty.chanOf ChanDir.bothDir (Ty.basic Kind.int), Prim.pChan 0⟩
    ⟨Ty.basic Kind.int, Prim.pInt 3⟩ true (by rfl) (by rfl)

/-- Helper: the per-kind conversions map a zero value to the kind's zero
payload. -/
theorem readScalar_zero (k : Kind) (t : Ty) :
    readScalar k ⟨t, zeroPrim k⟩ = zeroPrim k := by
  cases k <;>
    simp [readScalar, zeroPrim, RValue.goBool, RValue.goInt, RValue.goUint,
      RValue.goFloat, RValue.goComplex, RValue.goString] <;>
    decide

/-- C5: for every receive-permitted channel that has been closed and
fully drained, executing the compiled two-value receive yields the
element type's zero value paired with a false ok flag, and executing
the compiled single-value receive yields only the element type's zero
value. -/
theorem recv_closed_drained_zero (c : Comp) (d : ChanDir) (t : Ty) (id : Nat)
    (env : Env) (w : World) (hd : d.hasRecv = true)
    (hw : w.get? id = some ⟨t, [], true⟩) :
    runRecvXVRes (Comp.Recv c (mkChanExpr d t id)) env w
      = some ((zeroRValue t, [zeroRValue t, falseV]), w) ∧
    runRecv1Val (Comp.Recv1 c (mkChanExpr d t id)) env w
      = some (zeroPrim t.kind, w) := by
  have hw2 : w[id]? = some ⟨t, [], true⟩ := by
    rw [← List.get?_eq_getElem?]; exact hw
  have hrecvonly : d = ChanDir.recvDir ∨ d = ChanDir.bothDir := by
    cases d <;> simp_all [ChanDir.hasRecv]
  constructor
  · simp [Comp.Recv, mkChanExpr, tyKind, Ty.kind, tyChanDir, Ty.chanDir, hd,
      runRecvXVRes, XVClosure.run, recvChannelFun, Expr.AsX1, GenClosure.run,
      chanRecv, hw2, zeroRValue, exprXV]
  · rcases hrecvonly with h | h
    · subst h
      rcases t with k | ⟨i, k⟩ | ⟨d2, e2⟩
      · cases k <;>
          simp [Comp.Recv1, mkChanExpr, tyKind, Ty.kind, tyChanDir, Ty.chanDir,
            tyElem, Ty.elem, ChanDir.hasRecv, recv1FunXV, recv1FunX1, BasicType,
            runRecv1Val, exprFun, TypedClosure.run, GenClosure.run, Expr.AsX1,
            assertChanT, nativeRecv, chanRecv, hw2, zeroRValue, readScalar_zero,
            zeroPrim]
      · cases k <;>
          simp [Comp.Recv1, mkChanExpr, tyKind, Ty.kind, tyChanDir, Ty.chanDir,
            tyElem, Ty.elem, ChanDir.hasRecv, recv1FunXV, recv1FunX1, BasicType,
            runRecv1Val, exprFun, TypedClosure.run, GenClosure.run, Expr.AsX1,
            assertChanT, nativeRecv, chanRecv, hw2, zeroRValue, readScalar_zero,
            zeroPrim] <;>
          simp [readScalar, RValue.goBool, RValue.goInt, RValue.goUint,
            RValue.goFloat, RValue.goComplex, RValue.goString] <;>
          decide
      · simp [Comp.Recv1, mkChanExpr, tyKind, Ty.kind, tyChanDir, Ty.chanDir,
          tyElem, Ty.elem, ChanDir.hasRecv, recv1FunXV, recv1FunX1, BasicType,
          runRecv1Val, exprFun, TypedClosure.run, GenClosure.run, Expr.AsX1,
          assertChanT, nativeRecv, chanRecv, hw2, zeroRValue, readScalar_zero,
          zeroPrim]
    · subst h
      rcases t with k | ⟨i, k⟩ | ⟨d2, e2⟩
      · cases k <;>
          simp [Comp.Recv1, mkChanExpr, tyKind, Ty.kind, tyChanDir, Ty.chanDir,
            tyElem, Ty.elem, ChanDir.hasRecv, recv1FunXV, recv1FunX1, BasicType,
            runRecv1Val, exprFun, TypedClosure.run, GenClosure.run, Expr.AsX1,
            assertChanT, nativeRecv, chanRecv, hw2, zeroRValue, readScalar_zero,
            zeroPrim]
      · cases k <;>
          simp [Comp.Recv1, mkChanExpr, tyKind, Ty.kind, tyChanDir, Ty.chanDir,
            tyElem, Ty.elem, ChanDir.hasRecv, recv1FunXV, recv1FunX1, BasicType,
            runRecv1Val, exprFun, TypedClosure.run, GenClosure.run, Expr.AsX1,
            assertChanT, nativeRecv, chanRecv, hw2, zeroRValue, readScalar_zero,
            zeroPrim] <;>
          simp [readScalar, RValue.goBool, RValue.goInt, RValue.goUint,
            RValue.goFloat, RValue.goComplex, RValue.goString] <;>
          decide
      · simp [Comp.Recv1, mkChanExpr, tyKind, Ty.kind, tyChanDir, Ty.chanDir,
          tyElem, Ty.elem, ChanDir.hasRecv, recv1FunXV, recv1FunX1, BasicType,
          runRecv1Val, exprFun, TypedClosure.run, GenClosure.run, Expr.AsX1,
          assertChanT, nativeRecv, chanRecv, hw2, zeroRValue, readScalar_zero,
          zeroPrim]

/-- Witness for C5: on the closed, drained basic `int` channel both
receive forms yield the zero value, the two-value form with a false
flag. -/
theorem recv_closed_drained_zero_witness :
    runRecvXVRes (Comp.Recv c0 intChan0) env0 wClosed
      = some ((zeroRValue (Ty.basic Kind.int),
          [zeroRValue (Ty.basic Kind.int), falseV]), wClosed) ∧
    runRecv1Val (Comp.Recv1 c0 intChan0) env0 wClosed
      = some (zeroPrim Kind.int, wClosed) :=
  recv_closed_drained_zero c0 ChanDir.bothDir (Ty.basic Kind.int) 0 env0
    wClosed rfl rfl

/-- Helper: the single-value receive dispatch in the default branch
emits a native closure whenever the element type is exactly the
predefined basic type of a scalar kind. -/
theorem recv1FunX1_native (k : Kind) (hk : k.isScalar = true) (r : Bool) (cf : XFun) :
    (recv1FunX1 (Ty.basic k) r cf).isNativePath = true := by
  cases k <;>
    simp [recv1FunX1, BasicType, ExprFun.isNativePath, TypedClosure.isNativePath,
      Ty.kind] <;>
    simp [Kind.isScalar] at hk

/-- Helper: the constant-send dispatch emits a native instruction
whenever the element type is exactly the predefined basic type of a
scalar kind. -/
theorem constSendStmt_native (cf : XFun) (dir : ChanDir) (k : Kind)
    (hk : k.isScalar = true) (v : RValue) :
    (constSendStmt cf dir (Ty.basic k) v).isNativePath = true := by
  cases k <;> simp [constSendStmt, Stmt.isNativePath] <;> simp [Kind.isScalar] at hk

/-- Helper: appending an instruction makes it the last one. -/
theorem lastIsNative_append (c : Comp) (s : Stmt) :
    lastIsNative (c.append s) = some s.isNativePath := by
  simp [lastIsNative, Comp.append]

/-- C2 counterexample: the two-value receive on a bidirectional channel
of the predefined basic `bool` element type — element kind basic and
direction statically known — compiles to the generic reflective
closure, not to one operating on the statically-typed native channel. -/
theorem recv_two_value_not_native_cex :
    resultNative (Comp.Recv c0 (mkChanExpr ChanDir.bothDir (Ty.basic Kind.bool) 0))
      = some false := rfl

/-- C2 (amended): the single-value receive compiled from a single-valued
channel callable takes the native fast path whenever the element type
is exactly a predefined basic (scalar) kind; a Send with a constant
operand likewise; a Send with a dynamic operand takes the native path
when additionally the operand's compiled callable has the element
kind's specialized shape; the two-value receive always takes the
generic reflective path. -/
theorem native_path_dispatch (c : Comp) (xe channel value : Expr) (k : Kind)
    (d : ChanDir) (hk : k.isScalar = true) :
    (xe.type = some (Ty.chanOf d (Ty.basic k)) → d.hasRecv = true →
      xe.fn.isXV = false → resultNative (Comp.Recv1 c xe) = some true) ∧
    (channel.type = some (Ty.chanOf d (Ty.basic k)) → d.hasSend = true →
      value.Const = true → (value.ConstTo (Ty.basic k)).isSome = true →
      lastIsNative (Comp.Send c channel value).1 = some true) ∧
    (channel.type = some (Ty.chanOf d (Ty.basic k)) → d.hasSend = true →
      value.Const = false → tyAssignableTo value.type (Ty.basic k) = true →
      (∃ f, value.fn = ExprFun.typed k f) →
      lastIsNative (Comp.Send c channel value).1 = some true) ∧
    (xe.type = some (Ty.chanOf d (Ty.basic k)) → d.hasRecv = true →
      resultNative (Comp.Recv c xe) = some false) := by
  refine ⟨?_, ?_, ?_, ?_⟩
  · intro hty hd hfn
    cases hxe : xe.fn with
    | xv x => rw [hxe] at hfn; simp [ExprFun.isXV] at hfn
    | typed k2 f =>
      simp [Comp.Recv1, hty, hd, tyKind, Ty.kind, tyChanDir, Ty.chanDir,
        tyElem, Ty.elem, hxe, resultNative, exprFun, recv1FunX1_native k hk]
    | generic g =>
      simp [Comp.Recv1, hty, hd, tyKind, Ty.kind, tyChanDir, Ty.chanDir,
        tyElem, Ty.elem, hxe, resultNative, exprFun, recv1FunX1_native k hk]
  · intro hty hd hc hconv
    cases hcv : value.ConstTo (Ty.basic k) with
    | none => rw [hcv] at hconv; simp at hconv
    | some expr =>
      simp [Comp.Send, hty, hd, hc, tyKind, Ty.kind, tyChanDir, Ty.chanDir,
        tyElem, Ty.elem, hcv, lastIsNative_append, constSendStmt_native _ _ k hk]
  · intro hty hd hc hassign hf
    obtain ⟨f, hfn⟩ := hf
    cases k <;>
      simp [Comp.Send, hty, hd, hc, hassign, hfn, tyKind, Ty.kind, tyChanDir,
        Ty.chanDir, tyElem, Ty.elem, dynSendStmt, lastIsNative_append,
        Stmt.isNativePath] <;>
      simp [Kind.isScalar] at hk
  · intro hty hd
    simp [Comp.Recv, hty, hd, tyKind, Ty.kind, tyChanDir, Ty.chanDir,
      resultNative, exprXV, ExprFun.isNativePath]

/-- Witness for C2 (amended) at concrete inputs: the basic `int`
channel, a constant operand, and a dynamic `int`-shaped operand. -/
theorem native_path_dispatch_witness :
    resultNative (Comp.Recv1 c0 intChan0) = some true ∧
    lastIsNative (Comp.Send c0 intChan0 (constIntExpr 42)).1 = some true ∧
    lastIsNative (Comp.Send c0 intChan0 (opB 5)).1 = some true ∧
    resultNative (Comp.Recv c0 intChan0) = some false :=
  ⟨(native_path_dispatch c0 intChan0 intChan0 (constIntExpr 42) Kind.int
      ChanDir.bothDir (by decide)).1 rfl rfl rfl,
   (native_path_dispatch c0 intChan0 intChan0 (constIntExpr 42) Kind.int
      ChanDir.bothDir (by decide)).2.1 rfl rfl rfl (by rfl),
   (native_path_dispatch c0 intChan0 intChan0 (opB 5) Kind.int
      ChanDir.bothDir (by decide)).2.2.1 rfl rfl rfl rfl
      ⟨TypedClosure.ofFn (fun _ w => some (Prim.pInt 5, w)), rfl⟩,
   (native_path_dispatch c0 intChan0 intChan0 (constIntExpr 42) Kind.int
      ChanDir.bothDir (by decide)).2.2.2 rfl rfl⟩

/-- Helper: the per-kind conversions read only the raw payload, never
the wrapper's type tag. -/
theorem readScalar_ty_irrel (k : Kind) (p : Prim) (t t2 : Ty) :
    readScalar k ⟨t, p⟩ = readScalar k ⟨t2, p⟩ := by
  cases k <;> cases p <;> rfl

/-- Helper: the default-branch receive dispatch on a user-named element
type of scalar kind always picks the generic-tier conversion closure
(the `telem != BasicType(k)` test fails the identity check). -/
theorem recv1FunX1_named_eq (i : Nat) (k : Kind) (hk : k.isScalar = true)
    (r : Bool) (cf : XFun) :
    recv1FunX1 (Ty.named i k) r cf
      = ExprFun.typed k (TypedClosure.recv1Gen k cf) := by
  cases k <;> simp [recv1FunX1, BasicType, Ty.kind] <;>
    simp [Kind.isScalar] at hk

/-- Helper: the default-branch receive dispatch on a predefined basic
element type of scalar kind always picks the native closure, direction
qualified by the receive-only flag. -/
theorem recv1FunX1_basic_eq (k : Kind) (hk : k.isScalar = true)
    (r : Bool) (cf : XFun) :
    recv1FunX1 (Ty.basic k) r cf
      = ExprFun.typed k (TypedClosure.recv1Native k
          (if r then ChanDir.recvDir else ChanDir.bothDir) cf) := by
  cases k <;> simp [recv1FunX1, BasicType, Ty.kind] <;>
    simp [Kind.isScalar] at hk

/-- Helper: compiling a single-value receive of a channel literal of any
receive-permitted channel type. -/
theorem Recv1_mkChanExpr (c : Comp) (d : ChanDir) (t : Ty) (id : Nat)
    (hd : d.hasRecv = true) :
    Comp.Recv1 c (mkChanExpr d t id) = Except.ok (exprFun t
      (recv1FunX1 t (decide (d = ChanDir.recvDir))
        (Expr.AsX1 (mkChanExpr d t id)))) := by
  simp [Comp.Recv1, mkChanExpr, tyKind, Ty.kind, tyChanDir, Ty.chanDir, hd,
    tyElem, Ty.elem]

/-- Helper: the channel-literal callable returns the channel reference
and leaves the world unchanged. -/
theorem AsX1_mkChanExpr (d : ChanDir) (t : Ty) (id : Nat) (env : Env) (w : World) :
    Expr.AsX1 (mkChanExpr d t id) env w
      = some (⟨Ty.chanOf d t, Prim.pChan id⟩, w) := rfl

/-- C3: for every channel whose element type shares its kind with a
predefined basic type but is a distinct user-defined type — any name,
any scalar kind, any permitted direction, any channel id, any world
holding the channel — the compiled send and receive take the generic
reflective fallback tier and yield exactly the same observable value
for the same channel contents as the native fast path does for a
channel of the corresponding predefined basic type, and the received
value keeps the user type's identity. -/
theorem user_kind_tier_equivalence (c : Comp) (i : Nat) (k : Kind)
    (dR dS : ChanDir) (idU idB : Nat) (p q : Prim)
    (rest restB bufU bufB : List Prim) (clU clB : Bool) (env : Env)
    (wU wB wU2 wB2 : World)
    (hk : k.isScalar = true)
    (hp : readScalar k ⟨Ty.basic k, p⟩ = p)
    (hdR : dR.hasRecv = true) (hdS : dS.hasSend = true)
    (hwU : wU.get? idU = some ⟨Ty.named i k, p :: rest, clU⟩)
    (hwB : wB.get? idB = some ⟨Ty.basic k, p :: restB, clB⟩)
    (hwU2 : wU2.get? idU = some ⟨Ty.named i k, bufU, false⟩)
    (hwB2 : wB2.get? idB = some ⟨Ty.basic k, bufB, false⟩) :
    resultNative (Comp.Recv1 c (mkChanExpr dR (Ty.named i k) idU)) = some false ∧
    resultNative (Comp.Recv1 c (mkChanExpr dR (Ty.basic k) idB)) = some true ∧
    lastIsNative (Comp.Send c (mkChanExpr dS (Ty.named i k) idU)
        (mkOpExpr (Ty.named i k) k q)).1 = some false ∧
    lastIsNative (Comp.Send c (mkChanExpr dS (Ty.basic k) idB)
        (mkOpExpr (Ty.basic k) k q)).1 = some true ∧
    runRecv1Val (Comp.Recv1 c (mkChanExpr dR (Ty.named i k) idU)) env wU
      = some (p, wU.set idU ⟨Ty.named i k, rest, clU⟩) ∧
    runRecv1Val (Comp.Recv1 c (mkChanExpr dR (Ty.basic k) idB)) env wB
      = some (p, wB.set idB ⟨Ty.basic k, restB, clB⟩) ∧
    resultType (Comp.Recv1 c (mkChanExpr dR (Ty.named i k) idU))
      = some (some (Ty.named i k)) ∧
    runRecvXVRes (Comp.Recv c (mkChanExpr dR (Ty.named i k) idU)) env wU
      = some ((⟨Ty.named i k, p⟩, [⟨Ty.named i k, p⟩, trueV]),
          wU.set idU ⟨Ty.named i k, rest, clU⟩) ∧
    sendEffectWorld (Comp.Send c (mkChanExpr dS (Ty.named i k) idU)
        (mkOpExpr (Ty.named i k) k q)) env wU2
      = some (wU2.set idU ⟨Ty.named i k, bufU ++ [q], false⟩) ∧
    sendEffectWorld (Comp.Send c (mkChanExpr dS (Ty.basic k) idB)
        (mkOpExpr (Ty.basic k) k q)) env wB2
      = some (wB2.set idB ⟨Ty.basic k, bufB ++ [q], false⟩) := by
  have hgU : wU[idU]? = some ⟨Ty.named i k, p :: rest, clU⟩ := by
    rw [← List.get?_eq_getElem?]; exact hwU
  have hgB : wB[idB]? = some ⟨Ty.basic k, p :: restB, clB⟩ := by
    rw [← List.get?_eq_getElem?]; exact hwB
  have hgU2 : wU2[idU]? = some ⟨Ty.named i k, bufU, false⟩ := by
    rw [← List.get?_eq_getElem?]; exact hwU2
  have hgB2 : wB2[idB]? = some ⟨Ty.basic k, bufB, false⟩ := by
    rw [← List.get?_eq_getElem?]; exact hwB2
  have hp2 : readScalar k ⟨Ty.named i k, p⟩ = p :=
    (readScalar_ty_irrel k p (Ty.named i k) (Ty.basic k)).trans hp
  refine ⟨?_, ?_, ?_, ?_, ?_, ?_, ?_, ?_, ?_, ?_⟩
  · rw [Recv1_mkChanExpr c dR (Ty.named i k) idU hdR,
      recv1FunX1_named_eq i k hk]
    rfl
  · rw [Recv1_mkChanExpr c dR (Ty.basic k) idB hdR, recv1FunX1_basic_eq k hk]
    rfl
  · simp [Comp.Send, mkChanExpr, mkOpExpr, tyKind, Ty.kind, tyChanDir,
      Ty.chanDir, hdS, tyElem, Ty.elem, Expr.Const, tyAssignableTo,
      Ty.AssignableTo, dynSendStmt, lastIsNative_append, Stmt.isNativePath]
  · cases k <;>
      simp [Comp.Send, mkChanExpr, mkOpExpr, tyKind, Ty.kind, tyChanDir,
        Ty.chanDir, hdS, tyElem, Ty.elem, Expr.Const, tyAssignableTo,
        Ty.AssignableTo, dynSendStmt, lastIsNative_append, Stmt.isNativePath] <;>
      simp [Kind.isScalar] at hk
  · rw [Recv1_mkChanExpr c dR (Ty.named i k) idU hdR,
      recv1FunX1_named_eq i k hk]
    simp [runRecv1Val, exprFun, TypedClosure.run, AsX1_mkChanExpr, chanRecv,
      hgU, hp2]
  · rw [Recv1_mkChanExpr c dR (Ty.basic k) idB hdR, recv1FunX1_basic_eq k hk]
    have hrdR : dR = ChanDir.recvDir ∨ dR = ChanDir.bothDir := by
      cases dR <;> simp_all [ChanDir.hasRecv]
    rcases hrdR with h | h <;> subst h <;>
      simp [runRecv1Val, exprFun, TypedClosure.run, AsX1_mkChanExpr,
        assertChanT, nativeRecv, hgB]
  · rw [Recv1_mkChanExpr c dR (Ty.named i k) idU hdR]
    rfl
  · simp [Comp.Recv, mkChanExpr, tyKind, Ty.kind, tyChanDir, Ty.chanDir, hdR,
      runRecvXVRes, XVClosure.run, recvChannelFun, Expr.AsX1, GenClosure.run,
      chanRecv, hgU, exprXV]
  · simp [sendEffectWorld, Comp.Send, mkChanExpr, mkOpExpr, tyKind, Ty.kind,
      tyChanDir, Ty.chanDir, hdS, tyElem, Ty.elem, Expr.Const, tyAssignableTo,
      Ty.AssignableTo, dynSendStmt, Comp.append, Stmt.effect, Expr.AsX1,
      TypedClosure.run, GenClosure.run, RValue.Convert, chanSend, hgU2,
      List.getLast?_concat]
  · have hsdS : dS = ChanDir.sendDir ∨ dS = ChanDir.bothDir := by
      cases dS <;> simp_all [ChanDir.hasSend]
    rcases hsdS with h | h <;> subst h <;> cases k <;>
      simp [sendEffectWorld, Comp.Send, mkChanExpr, mkOpExpr, tyKind, Ty.kind,
        tyChanDir, Ty.chanDir, tyElem, Ty.elem, Expr.Const, tyAssignableTo,
        Ty.AssignableTo, dynSendStmt, sendAssertDir, Comp.append, Stmt.effect,
        Expr.AsX1, TypedClosure.run, GenClosure.run, assertChanT, nativeSend,
        hgB2, List.getLast?_concat, ChanDir.hasSend] <;>
      simp [Kind.isScalar] at hk

/-- Witness for C3 at concrete inputs: user type named-7 of kind `int`,
bidirectional channels at id 0, payload 5 received and 9 sent. -/
theorem user_kind_tier_equivalence_witness :
    resultNative (Comp.Recv1 c0
      (mkChanExpr ChanDir.bothDir (Ty.named 7 Kind.int) 0)) = some false ∧
    resultNative (Comp.Recv1 c0
      (mkChanExpr ChanDir.bothDir (Ty.basic Kind.int) 0)) = some true ∧
    lastIsNative (Comp.Send c0 (mkChanExpr ChanDir.bothDir (Ty.named 7 Kind.int) 0)
        (mkOpExpr (Ty.named 7 Kind.int) Kind.int (Prim.pInt 9))).1 = some false ∧
    lastIsNative (Comp.Send c0 (mkChanExpr ChanDir.bothDir (Ty.basic Kind.int) 0)
        (mkOpExpr (Ty.basic Kind.int) Kind.int (Prim.pInt 9))).1 = some true ∧
    runRecv1Val (Comp.Recv1 c0 (mkChanExpr ChanDir.bothDir (Ty.named 7 Kind.int) 0))
        env0 [⟨Ty.named 7 Kind.int, [Prim.pInt 5], false⟩]
      = some (Prim.pInt 5, [⟨Ty.named 7 Kind.int, [], false⟩]) ∧
    runRecv1Val (Comp.Recv1 c0 (mkChanExpr ChanDir.bothDir (Ty.basic Kind.int) 0))
        env0 [⟨Ty.basic Kind.int, [Prim.pInt 5], false⟩]
      = some (Prim.pInt 5, [⟨Ty.basic Kind.int, [], false⟩]) ∧
    resultType (Comp.Recv1 c0 (mkChanExpr ChanDir.bothDir (Ty.named 7 Kind.int) 0))
      = some (some (Ty.named 7 Kind.int)) ∧
    runRecvXVRes (Comp.Recv c0 (mkChanExpr ChanDir.bothDir (Ty.named 7 Kind.int) 0))
        env0 [⟨Ty.named 7 Kind.int, [Prim.pInt 5], false⟩]
      = some ((⟨Ty.named 7 Kind.int, Prim.pInt 5⟩,
          [⟨Ty.named 7 Kind.int, Prim.pInt 5⟩, trueV]),
          [⟨Ty.named 7 Kind.int, [], false⟩]) ∧
    sendEffectWorld (Comp.Send c0 (mkChanExpr ChanDir.bothDir (Ty.named 7 Kind.int) 0)
        (mkOpExpr (Ty.named 7 Kind.int) Kind.int (Prim.pInt 9))) env0
        [⟨Ty.named 7 Kind.int, [], false⟩]
      = some [⟨Ty.named 7 Kind.int, [Prim.pInt 9], false⟩] ∧
    sendEffectWorld (Comp.Send c0 (mkChanExpr ChanDir.bothDir (Ty.basic Kind.int) 0)
        (mkOpExpr (Ty.basic Kind.int) Kind.int (Prim.pInt 9))) env0
        [⟨Ty.basic Kind.int, [], false⟩]
      = some [⟨Ty.basic Kind.int, [Prim.pInt 9], false⟩] :=
  user_kind_tier_equivalence c0 7 Kind.int ChanDir.bothDir ChanDir.bothDir 0 0
    (Prim.pInt 5) (Prim.pInt 9) [] [] [] [] false false env0
    [⟨Ty.named 7 Kind.int, [Prim.pInt 5], false⟩]
    [⟨Ty.basic Kind.int, [Prim.pInt 5], false⟩]
    [⟨Ty.named 7 Kind.int, [], false⟩]
    [⟨Ty.basic Kind.int, [], false⟩]
    (by decide) (by decide) rfl rfl rfl rfl rfl rfl

/-- Helper: structure of a constant conversion result — the per-kind
read-back of a converted constant is the converted payload itself. -/
theorem readScalar_of_constConvert (q : Prim) (k : Kind) (p : Prim) (t : Ty)
    (h : constConvert q k = some p) : readScalar k ⟨t, p⟩ = p := by
  cases q <;> cases k <;> simp only [constConvert] at h <;>
  first
    | exact Option.noConfusion h
    | (injection h with h2
       subst h2
       simp [readScalar, RValue.goBool, RValue.goInt, RValue.goUint,
         RValue.goFloat, RValue.goComplex, RValue.goString])
    | (split at h <;>
       first
         | exact Option.noConfusion h
         | (injection h with h2
            subst h2
            simp [readScalar, RValue.goBool, RValue.goInt, RValue.goUint,
              RValue.goFloat, RValue.goComplex, RValue.goString] <;>
            first
              | assumption
              | omega))

/-- Helper: a successful native send appends exactly the given payload
to the buffer of the addressed open channel. -/
theorem nativeSend_shape (w : World) (id : Nat) (v : Prim) (w' : World)
    (h : nativeSend w id v = some w') :
    ∃ ch, w.get? id = some ch ∧ ch.closed = false ∧
      w' = w.set id { ch with buffer := ch.buffer ++ [v] } := by
  unfold nativeSend at h
  cases hc : w.get? id with
  | none => rw [hc] at h; exact Option.noConfusion h
  | some ch =>
    rw [hc] at h
    simp only at h
    cases hcl : ch.closed with
    | true => rw [hcl] at h; simp at h
    | false =>
      rw [hcl] at h
      simp at h
      exact ⟨ch, rfl, hcl, by rw [hcl]; exact h.symm⟩

/-- Helper: a successful reflective send appends exactly the value's
raw payload to the buffer of the referenced open channel. -/
theorem chanSend_shape (w : World) (chv v : RValue) (w' : World)
    (h : chanSend w chv v = some w') :
    ∃ id ch, chv.val = Prim.pChan id ∧ w.get? id = some ch ∧ ch.closed = false ∧
      w' = w.set id { ch with buffer := ch.buffer ++ [v.val] } := by
  unfold chanSend at h
  cases hv : chv.val <;> rw [hv] at h <;> try exact Option.noConfusion h
  case pChan id =>
    simp only at h
    cases hc : w.get? id with
    | none => rw [hc] at h; exact Option.noConfusion h
    | some ch =>
      rw [hc] at h
      simp only at h
      cases hcl : ch.closed with
      | true => rw [hcl] at h; simp at h
      | false =>
        rw [hcl] at h
        simp at h
        exact ⟨id, ch, rfl, hc, hcl, by rw [hcl]; exact h.symm⟩

/-- Helper: the effect of a native constant-send instruction with a
world-pure channel callable. -/
theorem sendConstNative_effect (cf : XFun) (dir : ChanDir) (k : Kind) (u : Prim)
    (hpure : ∀ env w r w1, cf env w = some (r, w1) → w1 = w)
    (env : Env) (w w' : World)
    (heff : (Stmt.sendConstNative cf dir k u).effect env w = some w') :
    ∃ id ch, w.get? id = some ch ∧ ch.closed = false ∧
      w' = w.set id { ch with buffer := ch.buffer ++ [u] } := by
  unfold Stmt.effect at heff
  simp only at heff
  cases hcf : cf env w with
  | none => rw [hcf] at heff; exact Option.noConfusion heff
  | some rw1 =>
    obtain ⟨chv, w1⟩ := rw1
    rw [hcf] at heff
    simp only at heff
    have hw1 := hpure env w chv w1 hcf
    subst hw1
    cases ha : assertChanT chv dir k with
    | none => rw [ha] at heff; simp only at heff; exact Option.noConfusion heff
    | some id =>
      rw [ha] at heff
      simp only at heff
      obtain ⟨ch, hc, hcl, hw⟩ := nativeSend_shape _ _ _ _ heff
      exact ⟨id, ch, hc, hcl, hw⟩

/-- Helper: the effect of a generic constant-send instruction with a
world-pure channel callable. -/
theorem sendConstGeneric_effect (cf : XFun) (v : RValue)
    (hpure : ∀ env w r w1, cf env w = some (r, w1) → w1 = w)
    (env : Env) (w w' : World)
    (heff : (Stmt.sendConstGeneric cf v).effect env w = some w') :
    ∃ id ch, w.get? id = some ch ∧ ch.closed = false ∧
      w' = w.set id { ch with buffer := ch.buffer ++ [v.val] } := by
  unfold Stmt.effect at heff
  simp only at heff
  cases hcf : cf env w with
  | none => rw [hcf] at heff; exact Option.noConfusion heff
  | some rw1 =>
    obtain ⟨chv, w1⟩ := rw1
    rw [hcf] at heff
    simp only at heff
    have hw1 := hpure env w chv w1 hcf
    subst hw1
    obtain ⟨id, ch, _, hc, hcl, hw⟩ := chanSend_shape _ _ _ _ heff
    exact ⟨id, ch, hc, hcl, hw⟩

/-- Helper: whichever tier the constant-send dispatch picks, executing
the emitted instruction appends the embedded literal's payload to the
addressed open channel. -/
theorem constSendStmt_effect (cf : XFun) (dir : ChanDir) (e : Ty) (v : RValue)
    (hrs : ∀ k, e = Ty.basic k → readScalar k v = v.val)
    (hpure : ∀ env w r w1, cf env w = some (r, w1) → w1 = w)
    (env : Env) (w w' : World)
    (heff : (constSendStmt cf dir e v).effect env w = some w') :
    ∃ id ch, w.get? id = some ch ∧ ch.closed = false ∧
      w' = w.set id { ch with buffer := ch.buffer ++ [v.val] } := by
  rcases e with k | ⟨i, k0⟩ | ⟨d2, e2⟩
  · cases k <;>
      first
        | (have hh := sendConstNative_effect cf dir _ _ hpure env w w' heff
           rw [hrs _ rfl] at hh
           exact hh)
        | exact sendConstGeneric_effect cf v hpure env w w' heff
  · exact sendConstGeneric_effect cf v hpure env w w' heff
  · exact sendConstGeneric_effect cf v hpure env w w' heff

/-- C8: for every Send statement whose operand is a compile-time
constant, the operand's value is folded and converted to the element
type once, at compile time; the single compiled instruction embeds that
literal so that executing it, against any environment and world where
the channel callable has no world effect, always sends the identical
embedded payload without re-evaluating the operand expression. -/
theorem send_const_embeds_literal (c : Comp) (channel value : Expr) (d : ChanDir)
    (e : Ty) (hty : channel.type = some (Ty.chanOf d e)) (hd : d.hasSend = true)
    (hconst : value.Const = true) (expr : Expr) (hconv : value.ConstTo e = some expr)
    (hpure : ∀ env w r w1, Expr.AsX1 channel env w = some (r, w1) → w1 = w) :
    (Comp.Send c channel value).1.code
      = c.code ++ [constSendStmt (Expr.AsX1 channel) (sendAssertDir d) e expr.value] ∧
    ∀ env w w',
      (constSendStmt (Expr.AsX1 channel) (sendAssertDir d) e expr.value).effect env w
        = some w' →
      ∃ id ch, w.get? id = some ch ∧ ch.closed = false ∧
        w' = w.set id { ch with buffer := ch.buffer ++ [expr.value.val] } := by
  have hcc : ∃ pp, constConvert value.value.val e.kind = some pp ∧
      expr = { value with type := some e, value := ⟨e, pp⟩ } := by
    unfold Expr.ConstTo at hconv
    cases hcv : constConvert value.value.val e.kind with
    | none => rw [hcv] at hconv; exact Option.noConfusion hconv
    | some pp => rw [hcv] at hconv; exact ⟨pp, rfl, (Option.some.inj hconv).symm⟩
  obtain ⟨pp, hcv, hexpr⟩ := hcc
  constructor
  · simp [Comp.Send, hty, hd, hconst, hconv, tyKind, Ty.kind, tyChanDir,
      Ty.chanDir, tyElem, Ty.elem, Comp.append]
  · intro env w w' heff
    have hrs : ∀ k, e = Ty.basic k → readScalar k expr.value = expr.value.val := by
      intro k hk
      subst hk
      subst hexpr
      exact readScalar_of_constConvert value.value.val k pp (Ty.basic k) hcv
    exact constSendStmt_effect (Expr.AsX1 channel) (sendAssertDir d) e expr.value
      hrs hpure env w w' heff

/-- Witness for C8 at concrete inputs: the constant 42 on the basic
`int` channel. -/
theorem send_const_embeds_literal_witness :
    (Comp.Send c0 intChan0 (constIntExpr 42)).1.code
      = c0.code ++ [constSendStmt (Expr.AsX1 intChan0) (sendAssertDir ChanDir.bothDir)
          (Ty.basic Kind.int) constIntConv42.value] ∧
    (∀ env w w',
      (constSendStmt (Expr.AsX1 intChan0) (sendAssertDir ChanDir.bothDir)
          (Ty.basic Kind.int) constIntConv42.value).effect env w = some w' →
      ∃ id ch, w.get? id = some ch ∧ ch.closed = false ∧
        w' = w.set id { ch with buffer := ch.buffer ++ [constIntConv42.value.val] }) :=
  send_const_embeds_literal c0 intChan0 (constIntExpr 42) ChanDir.bothDir
    (Ty.basic Kind.int) rfl rfl rfl constIntConv42 (by rfl) (by
      intro env w r w1 h
      injection h with h2
      exact (congrArg Prod.snd h2).symm)

end Fast
